import Mathlib

/-!
# Verification of the `spork` document-handle layer (`src/lib.rs`)

Shallow embedding of the pyo3 binding in `src/lib.rs`: a `Repo` managing
Automerge documents, `DocHandle` wrappers around one document, and `Text`
handles addressing one collaborative text object.

Modelling conventions:

* The external Automerge engine (document store, transactions, `splice_text`)
  is out of scope of the repository; its primitives are modelled from the
  spec's contract for them (each such definition is marked
  `Modelled from the spec:` in its doc comment).
* Async mutexes are modelled by allocation identity: every
  `Arc::new(AsyncMutex::new(..))` in the source allocates a fresh lock id
  from a counter in the repository state.  Two handles guard each other's
  operations iff their lock ids are equal.
* Text content is a `List Char` (Rust `str::chars`, i.e. Unicode scalar
  values); `usize` is `Nat`; `isize` is `Int`, with the `as isize` cast
  modelled as 64-bit wrap-around.
* Each `Text` operation returns, besides its result and the new state, the
  list of lock ids it acquires (in order), so that single-acquisition
  claims can be stated.
* Python-level errors (`PyValueError "Invalid document ID"`,
  `PyRuntimeError "Repository stopped"`, the `Document operation failed` /
  `Splice failed` / `Append failed` runtime errors) are the constructors of
  `PyErr`, following the spec's error taxonomy names.
-/

namespace Spork

/-- The spec's error taxonomy for caller-visible failures, as raised by the
binding (`PyValueError` / `PyRuntimeError` with the corresponding message). -/
inductive PyErr where
  | invalidDocumentId
  | repositoryStopped
  | documentOperationFailure
  | serializationFailure
deriving DecidableEq, Repr

/-- A value stored at the document root, as discriminated by
`get_string` / `get_text` in `src/lib.rs`: a plain scalar string
(`ScalarValue::Str`), some other scalar (number, boolean, ...), a text
object (`ObjType::Text`, carrying its object id), or some other object. -/
inductive AmValue where
  | scalarStr (s : String)
  | scalarOther
  | textObj (oid : Nat)
  | otherObj (oid : Nat)
deriving DecidableEq, Repr

/-- Association-list lookup with decidable keys (the engine's key→value maps). -/
def lookupA {κ α : Type} [DecidableEq κ] : List (κ × α) → κ → Option α
  | [], _ => none
  | (k', v) :: rest, k => if k = k' then some v else lookupA rest k

/-- Association-list insert/replace, keeping the first occurrence's position. -/
def insertA {κ α : Type} [DecidableEq κ] : List (κ × α) → κ → α → List (κ × α)
  | [], k, v => [(k, v)]
  | (k', v') :: rest, k, v =>
      if k = k' then (k, v) :: rest else (k', v') :: insertA rest k v

/-- Modelled from the spec: one live Automerge document — a root map from
field names to values, a store of text objects (character sequences) keyed
by object id, and the engine's allocator for fresh object ids. -/
structure AmDoc where
  root : List (String × AmValue)
  texts : List (Nat × List Char)
  nextObj : Nat
deriving DecidableEq, Repr

/-- The empty document (`automerge::Automerge::new()`). -/
def AmDoc.empty : AmDoc := { root := [], texts := [], nextObj := 0 }

/-- Modelled from the spec: the engine's `splice_text` primitive.  `pos` is a
0-based character offset with `0 ≤ pos ≤ length`; `del` is the (signed,
`isize`) number of characters to remove starting at `pos` and must satisfy
`0 ≤ del ≤ length - pos`; `ins` is inserted at `pos` after deletion.  A
missing or non-text object, a negative delete count, or an out-of-range
offset is a transaction failure (the spec's invalid-argument /
out-of-range `DocumentOperationFailure`). -/
def AmDoc.spliceText (doc : AmDoc) (oid : Nat) (pos : Nat) (del : Int)
    (ins : List Char) : Option AmDoc :=
  match lookupA doc.texts oid with
  | none => none
  | some txt =>
      if del < 0 then none
      else if pos + del.toNat ≤ txt.length then
        some { doc with
                texts := insertA doc.texts oid
                  (txt.take pos ++ ins ++ txt.drop (pos + del.toNat)) }
      else none

/-- Modelled from the spec: the engine's `doc.text(obj)` read — the current
character content of a text object, failing if the object is missing. -/
def AmDoc.textOf (doc : AmDoc) (oid : Nat) : Option (List Char) :=
  lookupA doc.texts oid

/-- Modelled from the spec: `tx.put(ROOT, key, value)` for a string value —
writes `value` as a plain (non-collaborative) scalar string at the root
field, overwriting any existing value there regardless of type. -/
def AmDoc.putScalarStr (doc : AmDoc) (k v : String) : AmDoc :=
  { doc with root := insertA doc.root k (.scalarStr v) }

/-- Modelled from the spec: `tx.put_object(ROOT, key, ObjType::Text)` —
allocates a fresh object id, installs an empty text object there, and puts
a reference to it at the root field, replacing any prior value. -/
def AmDoc.putObjectText (doc : AmDoc) (k : String) : AmDoc × Nat :=
  ({ doc with
      root := insertA doc.root k (.textObj doc.nextObj)
      texts := insertA doc.texts doc.nextObj []
      nextObj := doc.nextObj + 1 },
   doc.nextObj)

/-- Document identifiers.  The engine's native identifier is opaque to this
layer; it is modelled as a `Nat`. -/
abbrev DocumentId := Nat

/-- Modelled from the spec: the engine identifier's canonical string form
(the real grammar is owned by the engine; per the spec it round-trips
through string form without loss, so any injective printable form is
faithful — ids print as a run of `1` characters). -/
def DocumentId.toText (n : DocumentId) : String := ⟨List.replicate n '1'⟩

/-- Modelled from the spec: parsing an identifier string
(`id_str.parse::<DocumentId>()`), the inverse of `DocumentId.toText`;
any other string fails to parse. -/
def DocumentId.parse (s : String) : Option DocumentId :=
  if s.data.all (fun c => c == '1') then some s.data.length else none

/-- The `DocHandle` pyclass: the document's id together with the identity
of the `Arc<AsyncMutex<samod::DocHandle>>` allocated for it (`inner`). -/
structure DocHandle where
  lockId : Nat
  documentId : DocumentId
deriving DecidableEq, Repr

/-- The `Text` pyclass: the lock identity of its own
`Arc<AsyncMutex<samod::DocHandle>>` (`handle`), the addressed text object id
(`obj_id`), and the owning document's id. -/
structure Text where
  lockId : Nat
  objId : Nat
  documentId : DocumentId
deriving DecidableEq, Repr

/-- The repository and engine state threaded through every operation:
the engine's document store and fresh-document-id allocator, whether the
engine has been stopped, the Task Registry (`tasks`) with the ids of tasks
aborted so far, and the allocator of mutex identities. -/
structure RepoState where
  docs : List (DocumentId × AmDoc)
  nextDoc : Nat
  stopped : Bool
  tasks : List Nat
  aborted : List Nat
  nextLock : Nat
deriving DecidableEq, Repr

/-- An interaction with the engine binding, recorded by `Repo.find` so that
"no engine lookup happens" is statable. -/
inductive EngineEvent where
  | findLookup (id : DocumentId)
deriving DecidableEq, Repr

/-- The expression `doc_id.strip_prefix("automerge:").unwrap_or(&doc_id)` from
`Repo::find`: drop the scheme when the string starts with it. -/
def stripAutomergeScheme (s : String) : String :=
  if s.data.take 10 = "automerge:".data then ⟨s.data.drop 10⟩ else s

/-- Embeds `Repo::find` (src/lib.rs:120-148): strip the `automerge:` prefix if
present, parse the identifier (raising `InvalidDocumentId` synchronously on
failure, before the future is built), then ask the engine; a stopped engine
is `RepositoryStopped`, a missing document is `None`, and a found document
yields a fresh `DocHandle` (a new mutex wrapping the engine handle). -/
def Repo.find (st : RepoState) (docId : String) :
    Except PyErr (Option DocHandle) × RepoState × List EngineEvent :=
  let idStr := stripAutomergeScheme docId
  match DocumentId.parse idStr with
  | none => (.error .invalidDocumentId, st, [])
  | some n =>
      if st.stopped then (.error .repositoryStopped, st, [.findLookup n])
      else
        match lookupA st.docs n with
        | some _ =>
            (.ok (some { lockId := st.nextLock, documentId := n }),
             { st with nextLock := st.nextLock + 1 }, [.findLookup n])
        | none => (.ok none, st, [.findLookup n])

/-- Embeds `Repo::create` (src/lib.rs:160-181): the engine creates a fresh empty
document (assigning it a fresh id) and the binding wraps the returned
engine handle in a new mutex; a stopped engine is `RepositoryStopped`. -/
def Repo.create (st : RepoState) : Except PyErr DocHandle × RepoState :=
  if st.stopped then (.error .repositoryStopped, st)
  else
    (.ok { lockId := st.nextLock, documentId := st.nextDoc },
     { st with
        docs := insertA st.docs st.nextDoc AmDoc.empty
        nextDoc := st.nextDoc + 1
        nextLock := st.nextLock + 1 })

/-- Embeds `Repo::stop` (src/lib.rs:213-227): abort every task registered in the
Task Registry, drain the registry, then halt the engine binding.  The
operation has no failure path. -/
def Repo.stop (st : RepoState) : Except PyErr Unit × RepoState :=
  (.ok (),
   { st with
      tasks := []
      aborted := st.aborted ++ st.tasks
      stopped := true })

/-- Embeds the `DocHandle::url` getter (src/lib.rs:260-262): `automerge:<id>`. -/
def DocHandle.url (d : DocHandle) : String :=
  "automerge:" ++ DocumentId.toText d.documentId

/-- Embeds `DocHandle::set_string` (src/lib.rs:311-333): under the handle's lock,
open a transaction and put the value as a plain string at the root field;
a failed transaction is `DocumentOperationFailure` (in this model only a
dangling engine handle fails). -/
def DocHandle.set_string (d : DocHandle) (k v : String) (st : RepoState) :
    Except PyErr Unit × RepoState :=
  match lookupA st.docs d.documentId with
  | none => (.error .documentOperationFailure, st)
  | some doc =>
      (.ok (), { st with docs := insertA st.docs d.documentId (doc.putScalarStr k v) })

/-- Embeds `DocHandle::get_string` (src/lib.rs:348-375): under the handle's lock,
read the root field; a plain scalar string is returned, any other scalar,
any object, or an absent key yields `None` (silent type-mismatch policy). -/
def DocHandle.get_string (d : DocHandle) (k : String) (st : RepoState) :
    Except PyErr (Option String) × RepoState :=
  match lookupA st.docs d.documentId with
  | none => (.error .documentOperationFailure, st)
  | some doc =>
      match lookupA doc.root k with
      | some (.scalarStr s) => (.ok (some s), st)
      | some (.scalarOther) => (.ok none, st)
      | some (.textObj _) => (.ok none, st)
      | some (.otherObj _) => (.ok none, st)
      | none => (.ok none, st)

/-- Embeds `DocHandle::put_text` (src/lib.rs:426-458): in one transaction, create a
text object at the root field and splice the initial value into it; on
success return a `Text` whose `handle` is a NEW `Arc<AsyncMutex<..>>`
wrapping a clone of the engine handle (line 453) — a fresh lock identity,
not the parent's. -/
def DocHandle.put_text (d : DocHandle) (k v : String) (st : RepoState) :
    Except PyErr Text × RepoState :=
  match lookupA st.docs d.documentId with
  | none => (.error .documentOperationFailure, st)
  | some doc =>
      let p := doc.putObjectText k
      match p.1.spliceText p.2 0 0 v.data with
      | none => (.error .documentOperationFailure, st)
      | some doc' =>
          (.ok { lockId := st.nextLock, objId := p.2, documentId := d.documentId },
           { st with
              docs := insertA st.docs d.documentId doc'
              nextLock := st.nextLock + 1 })

/-- Embeds `DocHandle::get_text` (src/lib.rs:477-505): read the root field; if it
holds a text object return a `Text` handle for it — again guarded by a NEW
mutex (line 500) — otherwise `None`. -/
def DocHandle.get_text (d : DocHandle) (k : String) (st : RepoState) :
    Except PyErr (Option Text) × RepoState :=
  match lookupA st.docs d.documentId with
  | none => (.error .documentOperationFailure, st)
  | some doc =>
      match lookupA doc.root k with
      | some (.textObj oid) =>
          (.ok (some { lockId := st.nextLock, objId := oid, documentId := d.documentId }),
           { st with nextLock := st.nextLock + 1 })
      | some (.scalarStr _) => (.ok none, st)
      | some (.scalarOther) => (.ok none, st)
      | some (.otherObj _) => (.ok none, st)
      | none => (.ok none, st)

/-- Embeds `Text::get` (src/lib.rs:537-551): one acquisition of the text handle's
lock, then read the full character content; a dangling handle or missing
object is `DocumentOperationFailure`. -/
def Text.get (t : Text) (st : RepoState) :
    Except PyErr (List Char) × RepoState × List Nat :=
  match lookupA st.docs t.documentId with
  | none => (.error .documentOperationFailure, st, [t.lockId])
  | some doc =>
      match doc.textOf t.objId with
      | none => (.error .documentOperationFailure, st, [t.lockId])
      | some txt => (.ok txt, st, [t.lockId])

/-- Embeds `Text::length` (src/lib.rs:560-575): one acquisition of the handle's
lock, then `doc.text(..).chars().count()` — the number of Unicode scalar
values. -/
def Text.length (t : Text) (st : RepoState) :
    Except PyErr Nat × RepoState × List Nat :=
  match lookupA st.docs t.documentId with
  | none => (.error .documentOperationFailure, st, [t.lockId])
  | some doc =>
      match doc.textOf t.objId with
      | none => (.error .documentOperationFailure, st, [t.lockId])
      | some txt => (.ok txt.length, st, [t.lockId])

/-- Embeds `Text::splice` (src/lib.rs:598-622): one acquisition of the handle's
lock, then a transaction performing `splice_text(obj, pos, del, insert)`
(`pos : usize`, `del : isize`); a failed transaction is
`DocumentOperationFailure` ("Splice failed"). -/
def Text.splice (t : Text) (pos : Nat) (del : Int) (ins : List Char)
    (st : RepoState) : Except PyErr Unit × RepoState × List Nat :=
  match lookupA st.docs t.documentId with
  | none => (.error .documentOperationFailure, st, [t.lockId])
  | some doc =>
      match doc.spliceText t.objId pos del ins with
      | none => (.error .documentOperationFailure, st, [t.lockId])
      | some doc' =>
          (.ok (), { st with docs := insertA st.docs t.documentId doc' }, [t.lockId])

/-- Embeds `Text::insert` (src/lib.rs:634-641): delegates to `splice(pos, 0, text)`. -/
def Text.insert (t : Text) (pos : Nat) (ins : List Char) (st : RepoState) :
    Except PyErr Unit × RepoState × List Nat :=
  t.splice pos 0 ins st

/-- Rust's `as isize` cast from `usize`, on the 64-bit targets the crate
builds for: wrap-around into `[-2^63, 2^63)`. -/
def usizeToIsize (n : Nat) : Int :=
  if n % 2 ^ 64 < 2 ^ 63 then ((n % 2 ^ 64 : Nat) : Int)
  else ((n % 2 ^ 64 : Nat) : Int) - 2 ^ 64

/-- Embeds `Text::delete` (src/lib.rs:653-660): delegates to
`splice(pos, length as isize, "")`. -/
def Text.delete (t : Text) (pos : Nat) (cnt : Nat) (st : RepoState) :
    Except PyErr Unit × RepoState × List Nat :=
  t.splice pos (usizeToIsize cnt) [] st

/-- Embeds `Text::append` (src/lib.rs:669-692): ONE acquisition of the handle's
lock, under which the current character count is read and the splice at
that position is performed in one `with_document` call ("Append failed" on
transaction failure). -/
def Text.append (t : Text) (ins : List Char) (st : RepoState) :
    Except PyErr Unit × RepoState × List Nat :=
  match lookupA st.docs t.documentId with
  | none => (.error .documentOperationFailure, st, [t.lockId])
  | some doc =>
      match doc.textOf t.objId with
      | none => (.error .documentOperationFailure, st, [t.lockId])
      | some txt =>
          match doc.spliceText t.objId txt.length 0 ins with
          | none => (.error .documentOperationFailure, st, [t.lockId])
          | some doc' =>
              (.ok (), { st with docs := insertA st.docs t.documentId doc' }, [t.lockId])

/-- The literal composition `splice(length(), 0, text)` as two separate
handle operations (each acquiring the lock once); the reference point for
the `append` refinement claim. -/
def Text.appendAsTwoCalls (t : Text) (ins : List Char) (st : RepoState) :
    Except PyErr Unit × RepoState × List Nat :=
  match t.length st with
  | (.error e, st₁, l₁) => (.error e, st₁, l₁)
  | (.ok n, st₁, l₁) =>
      match t.splice n 0 ins st₁ with
      | (r, st₂, l₂) => (r, st₂, l₁ ++ l₂)

/-! ## Basic lemmas about the store operations -/

theorem lookupA_insertA_self {κ α : Type} [DecidableEq κ]
    (l : List (κ × α)) (k : κ) (v : α) :
    lookupA (insertA l k v) k = some v := by
  induction l with
  | nil => simp [insertA, lookupA]
  | cons p rest ih =>
      by_cases h : k = p.1
      · simp [insertA, lookupA, h]
      · simp only [insertA]
        rw [if_neg]
        · simp [lookupA, h, ih]
        · exact h

theorem parse_toText (n : DocumentId) :
    DocumentId.parse (DocumentId.toText n) = some n := by
  simp [DocumentId.parse, DocumentId.toText, List.all_eq_true, List.mem_replicate]

theorem strip_prepend (s : String) :
    stripAutomergeScheme ("automerge:" ++ s) = s := by
  have hd : ("automerge:" ++ s).data = "automerge:".data ++ s.data := rfl
  have hlen : ("automerge:".data).length = 10 := by decide
  have htake : ("automerge:".data ++ s.data).take 10 = "automerge:".data := by
    rw [show (10 : Nat) = ("automerge:".data).length from hlen.symm, List.take_left]
  rw [stripAutomergeScheme, hd, htake, if_pos rfl]
  rw [show (10 : Nat) = ("automerge:".data).length from hlen.symm, List.drop_left]

theorem strip_toText (n : DocumentId) :
    stripAutomergeScheme (DocumentId.toText n) = DocumentId.toText n := by
  rw [stripAutomergeScheme, if_neg]
  intro htake
  have ha : 'a' ∈ "automerge:".data := by decide
  rw [← htake] at ha
  have := List.take_subset 10 _ ha
  rw [DocumentId.toText, List.mem_replicate] at this
  exact absurd this.2 (by decide)

/-! ## Concrete fixtures for witnesses and counterexamples -/

/-- A repository state holding one empty document with id `0`, guarded by the
mutex with id `0` (so the next mutex allocation is id `1`). -/
def st0 : RepoState :=
  { docs := [(0, AmDoc.empty)], nextDoc := 1, stopped := false,
    tasks := [], aborted := [], nextLock := 1 }

/-- The document handle for document `0` in `st0`. -/
def d0 : DocHandle := { lockId := 0, documentId := 0 }

/-- The state after `put_text d0 "body" "Hello" st0`. -/
def stT : RepoState := (DocHandle.put_text d0 "body" "Hello" st0).2

/-- The text handle returned by `put_text d0 "body" "Hello" st0`. -/
def t0 : Text := { lockId := 1, objId := 0, documentId := 0 }

/-- The document stored in `stT`. -/
def docT : AmDoc :=
  { root := [("body", .textObj 0)], texts := [(0, "Hello".data)], nextObj := 1 }

/-! ## Claim theorems -/

/-- C10: when the identifier does not parse (after stripping the scheme),
`find` raises `InvalidDocumentId` synchronously: no engine lookup is
recorded and the repository state is unchanged. -/
theorem find_parse_failure_is_synchronous (st : RepoState) (s : String)
    (h : DocumentId.parse (stripAutomergeScheme s) = none) :
    Repo.find st s = (.error .invalidDocumentId, st, ([] : List EngineEvent)) := by
  simp [Repo.find, h]

theorem find_parse_failure_is_synchronous_witness :
    Repo.find st0 "not-a-valid-id" =
      (.error .invalidDocumentId, st0, ([] : List EngineEvent)) :=
  find_parse_failure_is_synchronous st0 "not-a-valid-id" (by decide)

/-- C5: `find` fails with `InvalidDocumentId` exactly when the identifier
(after stripping the scheme) does not parse; when it parses, a stopped
repository gives `RepositoryStopped`, a missing document gives `none`, and
an existing document gives a handle. -/
theorem find_outcomes (st : RepoState) (s : String) :
    ((Repo.find st s).1 = .error .invalidDocumentId ↔
      DocumentId.parse (stripAutomergeScheme s) = none) ∧
    (∀ n, DocumentId.parse (stripAutomergeScheme s) = some n →
      (st.stopped = true → (Repo.find st s).1 = .error .repositoryStopped) ∧
      (st.stopped = false → lookupA st.docs n = none → (Repo.find st s).1 = .ok none) ∧
      (st.stopped = false → ∀ doc, lookupA st.docs n = some doc →
        (Repo.find st s).1 = .ok (some { lockId := st.nextLock, documentId := n }))) := by
  constructor
  · cases hp : DocumentId.parse (stripAutomergeScheme s) with
    | none => simp [Repo.find, hp]
    | some n =>
        cases hst : st.stopped with
        | true => simp [Repo.find, hp, hst]
        | false =>
            cases hl : lookupA st.docs n with
            | none => simp [Repo.find, hp, hst, hl]
            | some doc => simp [Repo.find, hp, hst, hl]
  · intro n hp
    refine ⟨fun hst => ?_, fun hst hl => ?_, fun hst doc hl => ?_⟩
    · simp [Repo.find, hp, hst]
    · simp [Repo.find, hp, hst, hl]
    · simp [Repo.find, hp, hst, hl]

theorem find_outcomes_witness :
    (Repo.find st0 "").1 = .ok (some { lockId := st0.nextLock, documentId := 0 }) :=
  ((find_outcomes st0 "").2 0 (by decide)).2.2 (by decide) AmDoc.empty (by decide)

/-- C4: the `url` of a handle returned by `create` (format `automerge:<id>`)
resolves through `find` to a handle with the same document id, and `find`
accepts the bare identifier form just as well. -/
theorem url_find_roundtrip (st st₁ : RepoState) (d : DocHandle)
    (hc : Repo.create st = (.ok d, st₁)) :
    ((Repo.find st₁ d.url).1 =
        .ok (some { lockId := st₁.nextLock, documentId := d.documentId }) ∧
      ∀ h : DocHandle, (Repo.find st₁ d.url).1 = .ok (some h) →
        h.documentId = d.documentId) ∧
    (Repo.find st₁ (DocumentId.toText d.documentId)).1 =
      .ok (some { lockId := st₁.nextLock, documentId := d.documentId }) := by
  rw [Repo.create] at hc
  by_cases hst : st.stopped
  · simp [hst] at hc
  · rw [if_neg hst] at hc
    rw [Prod.mk.injEq] at hc
    obtain ⟨h1, h2⟩ := hc
    rw [Except.ok.injEq] at h1
    subst h1
    subst h2
    have hurl : ({ lockId := st.nextLock, documentId := st.nextDoc } : DocHandle).url =
        "automerge:" ++ DocumentId.toText st.nextDoc := rfl
    have hfindUrl :
        (Repo.find
          { docs := insertA st.docs st.nextDoc AmDoc.empty, nextDoc := st.nextDoc + 1,
            stopped := st.stopped, tasks := st.tasks, aborted := st.aborted,
            nextLock := st.nextLock + 1 }
          ("automerge:" ++ DocumentId.toText st.nextDoc)).1 =
        .ok (some { lockId := st.nextLock + 1, documentId := st.nextDoc }) := by
      simp [Repo.find, strip_prepend, parse_toText, hst, lookupA_insertA_self]
    refine ⟨⟨by simpa [hurl] using hfindUrl, fun h hh => ?_⟩, ?_⟩
    · rw [hurl] at hh
      rw [hfindUrl] at hh
      rw [Except.ok.injEq, Option.some.injEq] at hh
      rw [← hh]
    · simp [Repo.find, strip_toText, parse_toText, hst, lookupA_insertA_self]

theorem url_find_roundtrip_witness :
    (Repo.find (Repo.create st0).2 ({ lockId := 1, documentId := 1 } : DocHandle).url).1 =
      .ok (some { lockId := (Repo.create st0).2.nextLock,
                  documentId := ({ lockId := 1, documentId := 1 } : DocHandle).documentId }) :=
  (url_find_roundtrip st0 (Repo.create st0).2 { lockId := 1, documentId := 1 }
    (by rfl)).1.1

/-- C3: `set_string k v` followed by `get_string k` on the same handle, with
no intervening write, succeeds and returns exactly `v`. -/
theorem set_string_get_string_roundtrip (st : RepoState) (d : DocHandle)
    (doc : AmDoc) (k v : String)
    (hdoc : lookupA st.docs d.documentId = some doc) :
    (DocHandle.set_string d k v st).1 = .ok () ∧
    (DocHandle.get_string d k (DocHandle.set_string d k v st).2).1 = .ok (some v) := by
  refine ⟨by simp [DocHandle.set_string, hdoc], ?_⟩
  simp [DocHandle.set_string, hdoc, DocHandle.get_string, AmDoc.putScalarStr,
    lookupA_insertA_self]

theorem set_string_get_string_roundtrip_witness :
    (DocHandle.set_string d0 "title" "My Document" st0).1 = .ok () ∧
    (DocHandle.get_string d0 "title"
        (DocHandle.set_string d0 "title" "My Document" st0).2).1 =
      .ok (some "My Document") :=
  set_string_get_string_roundtrip st0 d0 AmDoc.empty "title" "My Document" (by rfl)

/-- C9: `get_string k` returns `some` exactly when the root field holds a
plain scalar string; an absent key, a non-string scalar, a text object, or
any other object yields `.ok none` — and the operation never returns an
error on a live handle. -/
theorem get_string_type_policy (st : RepoState) (d : DocHandle) (doc : AmDoc)
    (k : String) (hdoc : lookupA st.docs d.documentId = some doc) :
    (∀ v, lookupA doc.root k = some (.scalarStr v) →
        (DocHandle.get_string d k st).1 = .ok (some v)) ∧
    (lookupA doc.root k = none → (DocHandle.get_string d k st).1 = .ok none) ∧
    (lookupA doc.root k = some .scalarOther →
        (DocHandle.get_string d k st).1 = .ok none) ∧
    (∀ oid, lookupA doc.root k = some (.textObj oid) →
        (DocHandle.get_string d k st).1 = .ok none) ∧
    (∀ oid, lookupA doc.root k = some (.otherObj oid) →
        (DocHandle.get_string d k st).1 = .ok none) ∧
    (∃ r, (DocHandle.get_string d k st).1 = .ok r) := by
  refine ⟨fun v hv => ?_, fun hv => ?_, fun hv => ?_, fun oid hv => ?_,
    fun oid hv => ?_, ?_⟩
  · simp [DocHandle.get_string, hdoc, hv]
  · simp [DocHandle.get_string, hdoc, hv]
  · simp [DocHandle.get_string, hdoc, hv]
  · simp [DocHandle.get_string, hdoc, hv]
  · simp [DocHandle.get_string, hdoc, hv]
  · cases hv : lookupA doc.root k with
    | none => exact ⟨none, by simp [DocHandle.get_string, hdoc, hv]⟩
    | some v =>
        cases v with
        | scalarStr s => exact ⟨some s, by simp [DocHandle.get_string, hdoc, hv]⟩
        | scalarOther => exact ⟨none, by simp [DocHandle.get_string, hdoc, hv]⟩
        | textObj oid => exact ⟨none, by simp [DocHandle.get_string, hdoc, hv]⟩
        | otherObj oid => exact ⟨none, by simp [DocHandle.get_string, hdoc, hv]⟩

theorem get_string_type_policy_witness :
    (DocHandle.get_string d0 "body" stT).1 = .ok none ∧
    (DocHandle.get_string d0 "missing" stT).1 = .ok none :=
  ⟨(get_string_type_policy stT d0 docT "body" (by rfl)).2.2.2.1 0 (by rfl),
   (get_string_type_policy stT d0 docT "missing" (by rfl)).2.1 (by rfl)⟩

/-- C2: for a valid `(pos, del, ins)` — `pos ≤ length` and
`del ≤ length - pos` — `splice` succeeds; afterwards `get` returns the old
text with the `del` characters at `pos` removed and `ins` inserted at
`pos`, and `length` equals the old length minus `del` plus the character
count of `ins`. -/
theorem splice_content_and_length (st : RepoState) (t : Text) (doc : AmDoc)
    (txt : List Char) (pos del : Nat) (ins : List Char)
    (hdoc : lookupA st.docs t.documentId = some doc)
    (htxt : doc.textOf t.objId = some txt)
    (hpos : pos ≤ txt.length) (hdel : del ≤ txt.length - pos) :
    (Text.splice t pos (del : Int) ins st).1 = .ok () ∧
    (Text.get t (Text.splice t pos (del : Int) ins st).2.1).1 =
      .ok (txt.take pos ++ ins ++ txt.drop (pos + del)) ∧
    (Text.length t (Text.splice t pos (del : Int) ins st).2.1).1 =
      .ok (txt.length - del + ins.length) := by
  have hle : pos + del ≤ txt.length := by omega
  rw [AmDoc.textOf] at htxt
  have hnn : ¬((del : Nat) : Int) < 0 := by omega
  have hsp : doc.spliceText t.objId pos (del : Int) ins =
      some { doc with
              texts := insertA doc.texts t.objId
                (txt.take pos ++ ins ++ txt.drop (pos + del)) } := by
    simp only [AmDoc.spliceText, htxt]
    rw [if_neg hnn, Int.toNat_natCast, if_pos hle]
  refine ⟨by simp [Text.splice, hdoc, hsp], ?_, ?_⟩
  · simp [Text.splice, hdoc, hsp, Text.get, AmDoc.textOf, lookupA_insertA_self]
  · simp only [Text.splice, hdoc, hsp, Text.length, AmDoc.textOf,
      lookupA_insertA_self]
    rw [Except.ok.injEq]
    simp only [List.length_append, List.length_take, List.length_drop]
    omega

theorem splice_content_and_length_witness :
    (Text.splice t0 5 ((0 : Nat) : Int) " World".data stT).1 = .ok () ∧
    (Text.get t0 (Text.splice t0 5 ((0 : Nat) : Int) " World".data stT).2.1).1 =
      .ok ("Hello".data.take 5 ++ " World".data ++ "Hello".data.drop (5 + 0)) ∧
    (Text.length t0 (Text.splice t0 5 ((0 : Nat) : Int) " World".data stT).2.1).1 =
      .ok ("Hello".data.length - 0 + " World".data.length) :=
  splice_content_and_length stT t0 docT "Hello".data 5 0 " World".data
    (by rfl) (by rfl) (by decide) (by decide)

/-- C6: a negative delete count makes `splice` fail with
`DocumentOperationFailure`, leaving the state unchanged (no delete-backwards
or other alternate meaning). -/
theorem splice_negative_delete_fails (st : RepoState) (t : Text) (pos : Nat)
    (del : Int) (ins : List Char) (hneg : del < 0) :
    Text.splice t pos del ins st = (.error .documentOperationFailure, st, [t.lockId]) := by
  have hsp : ∀ doc : AmDoc, doc.spliceText t.objId pos del ins = none := by
    intro doc
    simp only [AmDoc.spliceText]
    cases htxt : lookupA doc.texts t.objId with
    | none => rfl
    | some txt => simp [hneg]
  simp only [Text.splice]
  cases hdoc : lookupA st.docs t.documentId with
  | none => rfl
  | some doc => simp [hsp doc]

theorem splice_negative_delete_fails_witness :
    Text.splice t0 0 (-1) [] stT =
      (.error .documentOperationFailure, stT, [t0.lockId]) :=
  splice_negative_delete_fails stT t0 0 (-1) [] (by decide)

/-- C8: the convenience operations are definitional specializations of
`splice` — `insert pos s` is `splice pos 0 s`; `delete pos cnt` is
`splice pos cnt []` for every `isize`-representable count; and `append s`
produces the same result and state as reading `length` and splicing there,
while performing only ONE acquisition of the handle's lock. -/
theorem convenience_ops_refine_splice (st : RepoState) (t : Text)
    (pos cnt : Nat) (s : List Char) (hcnt : cnt < 2 ^ 63) :
    Text.insert t pos s st = Text.splice t pos 0 s st ∧
    Text.delete t pos cnt st = Text.splice t pos ((cnt : Nat) : Int) [] st ∧
    (Text.append t s st).1 = (Text.appendAsTwoCalls t s st).1 ∧
    (Text.append t s st).2.1 = (Text.appendAsTwoCalls t s st).2.1 ∧
    (Text.append t s st).2.2 = [t.lockId] := by
  have hcast : usizeToIsize cnt = ((cnt : Nat) : Int) := by
    rw [usizeToIsize, Nat.mod_eq_of_lt (by omega), if_pos hcnt]
  refine ⟨rfl, by rw [Text.delete, hcast], ?_, ?_, ?_⟩ <;>
  · cases hdoc : lookupA st.docs t.documentId with
    | none =>
        simp [Text.append, Text.appendAsTwoCalls, Text.length, Text.splice, hdoc]
    | some doc =>
        cases htxt : doc.textOf t.objId with
        | none =>
            simp [Text.append, Text.appendAsTwoCalls, Text.length, Text.splice,
              hdoc, htxt]
        | some txt =>
            have hsp : doc.spliceText t.objId txt.length 0 s =
                some { doc with
                        texts := insertA doc.texts t.objId
                          (txt.take txt.length ++ s ++ txt.drop (txt.length + 0)) } := by
              have htxt' : lookupA doc.texts t.objId = some txt := htxt
              simp only [AmDoc.spliceText, htxt']
              rw [if_neg (by omega), if_pos (by simp [Int.toNat_zero])]
              simp
            simp [Text.append, Text.appendAsTwoCalls, Text.length, Text.splice,
              hdoc, htxt, hsp]

theorem convenience_ops_refine_splice_witness :
    Text.delete t0 1 2 stT = Text.splice t0 1 ((2 : Nat) : Int) [] stT ∧
    (Text.append t0 "!".data stT).2.2 = [t0.lockId] :=
  ⟨(convenience_ops_refine_splice stT t0 1 2 "!".data (by decide)).2.1,
   (convenience_ops_refine_splice stT t0 1 2 "!".data (by decide)).2.2.2.2⟩

/-- C7: `stop` aborts every task registered in the Task Registry, drains the
registry, and halts the engine; it has no failure path (so it succeeds with
no active connections), and a second `stop` also succeeds and leaves no
live task registered. -/
theorem stop_aborts_all_tasks_and_is_idempotent (st : RepoState) :
    (Repo.stop st).1 = .ok () ∧
    (Repo.stop st).2.tasks = [] ∧
    (Repo.stop st).2.stopped = true ∧
    (∀ tsk, tsk ∈ st.tasks → tsk ∈ (Repo.stop st).2.aborted) ∧
    (Repo.stop (Repo.stop st).2).1 = .ok () ∧
    (Repo.stop (Repo.stop st).2).2.tasks = [] := by
  refine ⟨rfl, rfl, rfl, fun tsk h => ?_, rfl, rfl⟩
  simp only [Repo.stop, List.mem_append]
  exact Or.inr h

theorem stop_aborts_all_tasks_and_is_idempotent_witness :
    (Repo.stop { st0 with tasks := [7] }).1 = .ok () ∧
    (Repo.stop { st0 with tasks := [7] }).2.tasks = [] ∧
    7 ∈ (Repo.stop { st0 with tasks := [7] }).2.aborted :=
  ⟨(stop_aborts_all_tasks_and_is_idempotent { st0 with tasks := [7] }).1,
   (stop_aborts_all_tasks_and_is_idempotent { st0 with tasks := [7] }).2.1,
   (stop_aborts_all_tasks_and_is_idempotent { st0 with tasks := [7] }).2.2.2.1 7
     (by decide)⟩

/-- C1 counterexample: at a concrete state, `put_text` returns a `Text`
handle whose serialization guard is the freshly allocated mutex `1`
(`Arc::new(AsyncMutex::new(handle.clone()))`, src/lib.rs:453), NOT the
parent `DocHandle`'s guard `0` — so the claim that every returned text
handle shares its parent's guard is false. -/
theorem put_text_guard_not_shared_counterexample :
    (DocHandle.put_text d0 "k" "v" st0).1 =
      .ok { lockId := 1, objId := 0, documentId := 0 } ∧
    ({ lockId := 1, objId := 0, documentId := 0 } : Text).lockId ≠ d0.lockId := by
  exact ⟨rfl, by decide⟩

/-- C1 (amended): every `Text` handle returned by `put_text` or `get_text`
is guarded by a freshly allocated mutex of its own, distinct from the
parent `DocHandle`'s guard — so text edits are serialized only against
operations on the same `Text` handle, not against field operations on the
parent document. -/
theorem text_handles_get_fresh_guard (st : RepoState) (d : DocHandle)
    (k v : String) (hfresh : d.lockId < st.nextLock) :
    (∀ t st', DocHandle.put_text d k v st = (.ok t, st') →
        t.lockId = st.nextLock ∧ t.lockId ≠ d.lockId) ∧
    (∀ t st', DocHandle.get_text d k st = (.ok (some t), st') →
        t.lockId = st.nextLock ∧ t.lockId ≠ d.lockId) := by
  constructor
  · intro t st' h
    cases hdoc : lookupA st.docs d.documentId with
    | none => simp [DocHandle.put_text, hdoc] at h
    | some doc =>
        cases hsp : (doc.putObjectText k).1.spliceText (doc.putObjectText k).2 0 0 v.data with
        | none => simp [DocHandle.put_text, hdoc, hsp] at h
        | some doc' =>
            simp only [DocHandle.put_text, hdoc, hsp, Prod.mk.injEq,
              Except.ok.injEq] at h
            obtain ⟨h1, -⟩ := h
            rw [← h1]
            refine ⟨rfl, ?_⟩
            show st.nextLock ≠ d.lockId
            omega
  · intro t st' h
    cases hdoc : lookupA st.docs d.documentId with
    | none => simp [DocHandle.get_text, hdoc] at h
    | some doc =>
        cases hv : lookupA doc.root k with
        | none => simp [DocHandle.get_text, hdoc, hv] at h
        | some v' =>
            cases v' with
            | scalarStr s => simp [DocHandle.get_text, hdoc, hv] at h
            | scalarOther => simp [DocHandle.get_text, hdoc, hv] at h
            | otherObj oid => simp [DocHandle.get_text, hdoc, hv] at h
            | textObj oid =>
                simp only [DocHandle.get_text, hdoc, hv, Prod.mk.injEq,
                  Except.ok.injEq, Option.some.injEq] at h
                obtain ⟨h1, -⟩ := h
                rw [← h1]
                refine ⟨rfl, ?_⟩
                show st.nextLock ≠ d.lockId
                omega

theorem text_handles_get_fresh_guard_witness :
    ({ lockId := 1, objId := 0, documentId := 0 } : Text).lockId = st0.nextLock ∧
    ({ lockId := 1, objId := 0, documentId := 0 } : Text).lockId ≠ d0.lockId :=
  (text_handles_get_fresh_guard st0 d0 "k" "v" (by decide)).1
    { lockId := 1, objId := 0, documentId := 0 }
    (DocHandle.put_text d0 "k" "v" st0).2 (by rfl)

end Spork
